import Mathlib

/-!
Shallow embedding of `src/run_migration_uat.py` (SQL Server → Postgres
migration script).  Pure fragments of the script (the type mapping, the
column-definition builder, the comma formatting of counts) are translated
as Lean functions; the database-facing loops (baseline capture, quality
checks, schema inspection, table creation, test migration, remaining-table
migration) are translated as functions over explicit models of the source
and target database state, with fallible queries returning `Except`.
-/

/-! ### String helpers (kernel-reducible stand-ins for Python str methods) -/

/-- Lowercase a string character by character (Python `str.lower` on the
ASCII identifiers this script handles). -/
def strToLower (s : String) : String := ⟨s.data.map Char.toLower⟩

/-- Python `s.endswith(p)`: `p` is a suffix of `s`. -/
def strEndsWith (s p : String) : Bool := p.data.isSuffixOf s.data

/-- Python `p in s` on strings: `p` occurs as a contiguous substring. -/
def infixOf (needle : List Char) : List Char → Bool
  | [] => needle.isEmpty
  | c :: rest => needle.isPrefixOf (c :: rest) || infixOf needle rest

/-- Python `s.startswith(p)`. -/
def strStartsWith (s p : String) : Bool := p.data.isPrefixOf s.data

/-- Python format spec `{n:,}`: decimal digits grouped in threes by commas. -/
def commaFormat (n : Nat) : String :=
  ⟨(((toString n).data.reverse.enum).foldl
      (fun acc ic =>
        if ic.1 ≠ 0 ∧ ic.1 % 3 = 0 then ic.2 :: ',' :: acc else ic.2 :: acc)
      [])⟩

/-! ### Section 4 of the script: tables to migrate -/

/-- `tables_to_migrate = ['Categories', 'Suppliers', 'Customers', 'Products']`. -/
def tablesToMigrate : List String := ["Categories", "Suppliers", "Customers", "Products"]

/-! ### Section 5: baseline row counts

The script loops over the tables issuing `SELECT COUNT(*)`, storing each
count in `baseline_counts`; the whole loop sits in a `try` whose handler
re-raises (`raise`), so the first failing count aborts the capture and the
run.  We model the source by a partial count function (`none` = the count
query raised). -/

/-- `baseline_counts` capture loop: complete count map, or the first
failing table's error re-raised. -/
def baselineCounts (count : String → Option Nat) : List String → Except String (List (String × Nat))
  | [] => .ok []
  | t :: ts =>
    match count t with
    | none => .error t
    | some n =>
      match baselineCounts count ts with
      | .error e => .error e
      | .ok m => .ok ((t, n) :: m)

/-! ### Section 5 continued: quality checks

The five checks (null CustomerName, invalid emails, negative prices,
negative stock, orphaned Products→Suppliers keys) all run inside one
`try`; each appends a message to `quality_issues` only when its count is
positive; the `except` handler re-raises.  We model each check query as an
`Except`-valued count. -/

def nullNamesMsg (k : Nat) : String :=
  " > " ++ commaFormat k ++ " customers with Null names..."

def invalidEmailsMsg (k : Nat) : String :=
  " > " ++ commaFormat k ++ " emails with invalid email formats..."

def negativePricesMsg (k : Nat) : String :=
  " > " ++ commaFormat k ++ " prices contain negative prices..."

def negativeStockMsg (k : Nat) : String :=
  " > " ++ commaFormat k ++ " products contain negative values..."

def orphanedFksMsg (k : Nat) : String :=
  " > " ++ commaFormat k ++ " products with orphaned foreign keys..."

/-- The per-check emission step of the script: append one message exactly
when the violating-row count is positive. -/
def checkFinding (msg : Nat → String) (k : Nat) : List String :=
  if 0 < k then [msg k] else []

/-- Results of the five check queries against the source database
(`.error` models the query raising, e.g. a missing column). -/
structure ChecksSource where
  nullNames : Except String Nat
  invalidEmails : Except String Nat
  negativePrices : Except String Nat
  negativeStock : Except String Nat
  orphanedFks : Except String Nat

/-- The `quality_issues` block: the five checks run sequentially inside a
single `try`; a raising query aborts the block and re-raises. -/
def qualityIssues (s : ChecksSource) : Except String (List String) := do
  let k1 ← s.nullNames
  let is1 := checkFinding nullNamesMsg k1
  let k2 ← s.invalidEmails
  let is2 := is1 ++ checkFinding invalidEmailsMsg k2
  let k3 ← s.negativePrices
  let is3 := is2 ++ checkFinding negativePricesMsg k3
  let k4 ← s.negativeStock
  let is4 := is3 ++ checkFinding negativeStockMsg k4
  let k5 ← s.orphanedFks
  pure (is4 ++ checkFinding orphanedFksMsg k5)

/-! ### Section 6: schema inspection -/

/-- One row of the `INFORMATION_SCHEMA.COLUMNS` query. -/
structure Column where
  name : String
  dataType : String
  maxLength : Option Nat
  nullable : Bool
deriving DecidableEq

/-- The `INFORMATION_SCHEMA.COLUMNS ... WHERE TABLE_NAME = ?` query against
a source catalog: it succeeds with the empty list for a table absent from
the catalog (the filter simply matches no rows). -/
def infoSchemaQuery (catalog : List (String × List Column)) (t : String) :
    Except String (List Column) :=
  .ok ((catalog.lookup t).getD [])

/-- Helper loop for `table_shema`: accumulate per-table schemas; on the
first raising query the `except Exception: pass` handler swallows the error
and the loop is abandoned, keeping whatever was already stored. -/
def tableShemaAux (q : String → Except String (List Column))
    (acc : List (String × List Column)) : List String → List (String × List Column)
  | [] => acc
  | t :: ts =>
    match q t with
    | .error _ => acc
    | .ok cols => tableShemaAux q (acc ++ [(t, cols)]) ts

/-- The `table_shema` dictionary built by section 6 of the script. -/
def table_shema (q : String → Except String (List Column)) (ts : List String) :
    List (String × List Column) :=
  tableShemaAux q [] ts

/-! ### Section 7: type mapping -/

/-- The `type_mapping` dict, in declaration order. -/
def typeMapping : List (String × String) :=
  [("int", "INTEGER"), ("bigint", "BIGINT"), ("smallint", "SMALLINT"),
   ("tinyint", "SMALLINT"), ("bit", "BOOLEAN"), ("decimal", "NUMERIC"),
   ("numeric", "NUMERIC"), ("money", "NUMERIC(19,4)"),
   ("smallmoney", "NUMERIC(10,4)"), ("float", "DOUBLE PRECISION"),
   ("real", "REAL"), ("datetime", "TIMESTAMP"), ("datetime2", "TIMESTAMP"),
   ("smalldatetime", "TIMESTAMP"), ("date", "DATE"), ("time", "TIME"),
   ("char", "CHAR"), ("varchar", "VARCHAR"), ("nchar", "CHAR"),
   ("nvarchar", "VARCHAR"), ("text", "TEXT"), ("ntext", "TEXT")]

/-- `type_mapping.get(sql_type.lower(), 'TEXT')`. -/
def mapType (sqlType : String) : String :=
  (typeMapping.lookup (strToLower sqlType)).getD "TEXT"

/-! ### Section 8: create tables in Postgres -/

/-- One entry of `column_definitions`: the first column (index 0) is
promoted to `SERIAL PRIMARY KEY` when its lowercased name ends in `id`
and `int` occurs in the lowercased source type. -/
def columnDef (idx : Nat) (c : Column) : String :=
  let colName := strToLower c.name
  let pgType := mapType c.dataType
  if idx == 0 && strEndsWith colName "id" && infixOf "int".data (strToLower c.dataType).data then
    colName ++ " SERIAL PRIMARY KEY"
  else
    colName ++ " " ++ pgType

/-- The full `column_definitions` list for a table's schema rows. -/
def columnDefinitions (cols : List Column) : List String :=
  (cols.enum).map (fun ic => columnDef ic.1 ic.2)

/-- Python `",\n        ".join(...)`. -/
def joinWith (sep : String) : List String → String
  | [] => ""
  | [x] => x
  | x :: y :: xs => x ++ sep ++ joinWith sep (y :: xs)

/-- `column_string` as built by the script. -/
def columnString (cols : List Column) : String :=
  joinWith ",\n        " (columnDefinitions cols)

/-- The create-tables loop: every table handled inside one `try`; a
database error on one `CREATE TABLE` rolls back and re-raises, abandoning
the loop, while each successful table was already committed.  Returns the
list of (lowercased) tables actually created and the propagated error. -/
def createTables (ddlFails : String → Bool) : List String → List String × Option String
  | [] => ([], none)
  | t :: ts =>
    if ddlFails t then ([], some t)
    else
      let r := createTables ddlFails ts
      (strToLower t :: r.1, r.2)

/-! ### Section 9: test migration with one table (`Customers`)

The script extracts all rows, and only when the extracted frame has an
`IsActive` column does it transform, bulk-insert, commit, and verify
(`pg_count == baseline_counts[test_table]`, printed, never raised).  The
`except` handler rolls back and re-raises the underlying exception.  We
model the environment (no concurrent writers on the target) and record the
observable outcome of the cell. -/

/-- Environment for the single-table test migration. -/
structure MigEnv where
  sourceCols : List String
  sourceRows : Nat
  extractFails : Bool
  loadFails : Bool
  targetCount : Nat
  baseline : Nat
deriving DecidableEq

/-- Observable outcome of the test-migration cell.  `raised` is the
underlying driver exception re-raised to the caller (the script wraps it in
nothing). -/
structure MigOutcome where
  extracted : Bool
  inserted : Bool
  committed : Bool
  verifiedRun : Bool
  verified : Bool
  rowsWritten : Nat
  targetCountAfter : Nat
  raised : Option String
deriving DecidableEq

/-- The section-9 cell.  Note the `if 'IsActive' in test_df.columns` guard
encloses steps 3–5 (prepare, insert+commit, verify) and has no `else`. -/
def testMigration (e : MigEnv) : MigOutcome :=
  if e.extractFails then
    ⟨false, false, false, false, false, 0, e.targetCount, some "extract"⟩
  else if e.sourceCols.contains "IsActive" then
    if e.loadFails then
      ⟨true, false, false, false, false, 0, e.targetCount, some "load"⟩
    else
      ⟨true, true, true, true, e.targetCount + e.sourceRows == e.baseline,
       e.sourceRows, e.targetCount + e.sourceRows, none⟩
  else
    ⟨true, false, false, false, false, 0, e.targetCount, none⟩

/-! ### Section 10: migrate remaining tables -/

/-- `remaining_tables = [t for t in tables_to_migrate if t != 'Customers']`. -/
def remainingTables : List String := tablesToMigrate.filter (fun t => t != "Customers")

/-- A model SQL Server front end: `tables` maps existing table names to row
counts; only well-formed `SELECT * FROM x` extract queries succeed. -/
def sqlServerRead (tables : List (String × Nat)) (q : String) : Except String Nat :=
  if strStartsWith q "SELECT * FROM " then
    match tables.lookup ⟨q.data.drop 14⟩ with
    | some n => .ok n
    | none => .error "Invalid object name"
  else .error "Incorrect syntax"

/-- Observable outcome of one iteration of the remaining-tables loop. -/
structure RemOutcome where
  attempted : Bool
  failedInternally : Bool
  errorPropagated : Bool
  rolledBack : Bool
  rowsLoaded : Nat
deriving DecidableEq

/-- The remaining-tables loop: each table's extract query is the
misspelled `f"SLEECT * FROM {table}"`; the loop body reads and prepares
data but issues no insert, and its `except Exception: pass` handler
swallows every failure with no rollback and nothing re-raised. -/
def migrateRemaining (db : String → Except String Nat) (ts : List String) :
    List (String × RemOutcome) :=
  ts.map (fun t =>
    (t, match db ("SLEECT * FROM " ++ t) with
        | .error _ => ⟨true, true, false, false, 0⟩
        | .ok _ => ⟨true, false, false, false, 0⟩))

/-! ### Concrete fixtures used by witnesses and counterexamples -/

/-- Scenario-A-style source: the four Northwind-style tables with row counts. -/
def uatSource : List (String × Nat) :=
  [("Categories", 5), ("Suppliers", 3), ("Customers", 10), ("Products", 20)]

/-- Scenario B columns (`CustomerID int`, `CustomerName nvarchar`). -/
def scenarioBCols : List Column :=
  [⟨"CustomerID", "int", none, false⟩, ⟨"CustomerName", "nvarchar", some 100, true⟩]

/-- A catalog that contains `Customers` but no table named `Ghost`. -/
def ghostCatalog : List (String × List Column) :=
  [("Customers", [⟨"CustomerID", "int", none, false⟩, ⟨"CustomerName", "nvarchar", some 100, true⟩])]

/-- A count oracle defined on two tables only. -/
def demoCounts (t : String) : Option Nat :=
  if t == "Categories" then some 5 else if t == "Suppliers" then some 3 else none

/-- Test-migration environment whose load step throws mid-batch. -/
def loadFailEnv : MigEnv :=
  ⟨["CustomerID", "CustomerName", "IsActive"], 10, false, true, 0, 10⟩

/-- A clean test-migration environment: fresh (empty) target, baseline
equal to the source row count, everything succeeds. -/
def demoMigEnv : MigEnv :=
  ⟨["CustomerID", "CustomerName", "IsActive"], 10, false, false, 0, 10⟩

/-- A test-migration environment whose extracted frame has no `IsActive`
column. -/
def noIsActiveEnv : MigEnv :=
  ⟨["SupplierID", "CompanyName"], 3, false, false, 0, 3⟩

/-- Check-query results where the first check raises (missing column) while
the later checks would all have findings to report. -/
def missingColumnSource : ChecksSource :=
  ⟨.error "Invalid column name CustomerName", .ok 1, .ok 2, .ok 3, .ok 4⟩

/-! ### Claim theorems -/

/-- C5: `map_type` lowercases its input before lookup (so it is
case-insensitive), returns the mapped target type whenever the normalized
name is in the static table, returns the generic `TEXT` fallback for any
unrecognized source type, and — being a total Lean function — never raises
and is deterministic. -/
theorem map_type_total_fallback :
    (∀ s t : String, strToLower s = strToLower t → mapType s = mapType t) ∧
    (∀ s ty : String, typeMapping.lookup (strToLower s) = some ty → mapType s = ty) ∧
    (∀ s : String, typeMapping.lookup (strToLower s) = none → mapType s = "TEXT") ∧
    mapType "NVARCHAR" = "VARCHAR" ∧ mapType "sql_variant" = "TEXT" := by
  refine ⟨?_, ?_, ?_, ?_, ?_⟩
  · intro s t h; unfold mapType; rw [h]
  · intro s ty h; unfold mapType; rw [h]; rfl
  · intro s h; unfold mapType; rw [h]; rfl
  · rfl
  · rfl

/-- Witness for C5 at concrete inputs: the known type `INT` maps through
the table, the unknown type `geography` falls back to `TEXT`. -/
theorem map_type_total_fallback_witness :
    mapType "INT" = "INTEGER" ∧ mapType "geography" = "TEXT" :=
  ⟨map_type_total_fallback.2.1 "INT" "INTEGER" (by decide),
   map_type_total_fallback.2.2.1 "geography" (by decide)⟩

/-- The five quality-check message builders, in battery order. -/
def checkMessages : List (Nat → String) :=
  [nullNamesMsg, invalidEmailsMsg, negativePricesMsg, negativeStockMsg, orphanedFksMsg]

/-- C7: each quality check emits no finding when zero rows violate its
predicate, and exactly one finding whose message embeds the violating-row
count `k` (comma-formatted, as the script prints it) when `k > 0`. -/
theorem quality_check_emission (m : Nat → String) (hm : m ∈ checkMessages) (k : Nat) :
    checkFinding m 0 = [] ∧
    (0 < k → checkFinding m k = [m k] ∧
      ∃ pre post : String, m k = pre ++ commaFormat k ++ post) := by
  constructor
  · rfl
  · intro hk
    refine ⟨by simp [checkFinding, hk], ?_⟩
    simp only [checkMessages, List.mem_cons, List.not_mem_nil, or_false] at hm
    rcases hm with h | h | h | h | h
    · subst h; exact ⟨" > ", " customers with Null names...", rfl⟩
    · subst h; exact ⟨" > ", " emails with invalid email formats...", rfl⟩
    · subst h; exact ⟨" > ", " prices contain negative prices...", rfl⟩
    · subst h; exact ⟨" > ", " products contain negative values...", rfl⟩
    · subst h; exact ⟨" > ", " products with orphaned foreign keys...", rfl⟩

/-- Witness for C7: the null-name check on 1234 violating rows emits
exactly one finding embedding the comma-formatted count. -/
theorem quality_check_emission_witness :
    checkFinding nullNamesMsg 1234 = [nullNamesMsg 1234] ∧
    ∃ pre post : String, nullNamesMsg 1234 = pre ++ commaFormat 1234 ++ post :=
  (quality_check_emission nullNamesMsg (by simp [checkMessages]) 1234).2 (by decide)

/-- C6: schema materialization promotes the first column (index 0), and
only the first column, to `SERIAL PRIMARY KEY`, exactly when its lowercased
name ends in `id` and its source type is an integer-family type (among the
known source types, `int` occurs as a substring exactly in `int`, `bigint`,
`smallint`, `tinyint`); on Scenario B's columns the produced definitions
are `customerid SERIAL PRIMARY KEY, customername VARCHAR`. -/
theorem schema_materializer_pk :
    columnDefinitions scenarioBCols = ["customerid SERIAL PRIMARY KEY", "customername VARCHAR"] ∧
    columnString scenarioBCols = "customerid SERIAL PRIMARY KEY,\n        customername VARCHAR" ∧
    (∀ c : Column, strEndsWith (strToLower c.name) "id" = true →
      infixOf "int".data (strToLower c.dataType).data = true →
      columnDef 0 c = strToLower c.name ++ " SERIAL PRIMARY KEY") ∧
    (∀ (i : Nat) (c : Column), i ≠ 0 →
      columnDef i c = strToLower c.name ++ " " ++ mapType c.dataType) ∧
    (∀ c : Column,
      strEndsWith (strToLower c.name) "id" = false ∨
        infixOf "int".data (strToLower c.dataType).data = false →
      columnDef 0 c = strToLower c.name ++ " " ++ mapType c.dataType) ∧
    (∀ t ∈ typeMapping.map Prod.fst,
      (infixOf "int".data t.data = true ↔
        t = "int" ∨ t = "bigint" ∨ t = "smallint" ∨ t = "tinyint")) := by
  refine ⟨by decide, by decide, ?_, ?_, ?_, by decide⟩
  · intro c h1 h2
    simp [columnDef, h1, h2]
  · intro i c hi
    have hb : (i == 0) = false := by simpa using hi
    simp [columnDef, hb]
  · intro c h
    rcases h with h | h <;> simp [columnDef, h]

/-- Witness for C6 at concrete columns: a first `bigint` column named
`SupplierID` is promoted, a second column never is, and a first column not
ending in `id` is not. -/
theorem schema_materializer_pk_witness :
    columnDef 0 ⟨"SupplierID", "bigint", none, false⟩ =
      strToLower "SupplierID" ++ " SERIAL PRIMARY KEY" ∧
    columnDef 1 ⟨"CompanyName", "nvarchar", some 50, true⟩ =
      strToLower "CompanyName" ++ " " ++ mapType "nvarchar" ∧
    columnDef 0 ⟨"CategoryName", "nvarchar", some 50, true⟩ =
      strToLower "CategoryName" ++ " " ++ mapType "nvarchar" :=
  ⟨schema_materializer_pk.2.2.1 ⟨"SupplierID", "bigint", none, false⟩ (by decide) (by decide),
   schema_materializer_pk.2.2.2.1 1 ⟨"CompanyName", "nvarchar", some 50, true⟩ (by decide),
   schema_materializer_pk.2.2.2.2.1 ⟨"CategoryName", "nvarchar", some 50, true⟩ (Or.inl (by decide))⟩

/-- C8: when the extract succeeds, the frame has the `IsActive` column, the
load succeeds, and the target table starts empty (it was just recreated),
the test migration writes exactly the source row count and computes
`verified` as (target count == baseline); a mismatch only sets `verified`
to false, never raising, and `verified` is true when the baseline equals
the source row count. -/
theorem test_migration_roundtrip (e : MigEnv) (hx : e.extractFails = false)
    (hc : e.sourceCols.contains "IsActive" = true) (hl : e.loadFails = false)
    (ht : e.targetCount = 0) :
    (testMigration e).rowsWritten = e.sourceRows ∧
    (testMigration e).verified = (e.sourceRows == e.baseline) ∧
    (testMigration e).raised = none ∧
    (e.baseline = e.sourceRows → (testMigration e).verified = true) := by
  have hm : "IsActive" ∈ e.sourceCols := by simpa using hc
  simp [testMigration, hx, hm, hl, ht]
  intro h
  simp [h]

/-- Witness for C8: a clean environment with ten source rows and a
matching baseline. -/
theorem test_migration_roundtrip_witness :
    (testMigration demoMigEnv).rowsWritten = demoMigEnv.sourceRows ∧
    (testMigration demoMigEnv).verified = (demoMigEnv.sourceRows == demoMigEnv.baseline) ∧
    (testMigration demoMigEnv).raised = none ∧
    (demoMigEnv.baseline = demoMigEnv.sourceRows → (testMigration demoMigEnv).verified = true) :=
  test_migration_roundtrip demoMigEnv (by decide) (by decide) (by decide) (by decide)

/-- C9: baseline capture either returns a complete count map with an entry
(the source count) for every requested table, or, as soon as any single
count query fails, aborts with an error carrying no partial map at all. -/
theorem baseline_capture_complete (count : String → Option Nat) (ts : List String) :
    ((∀ t ∈ ts, (count t).isSome = true) →
      ∃ m, baselineCounts count ts = .ok m ∧
        ∀ t ∈ ts, ∃ n, (t, n) ∈ m ∧ count t = some n) ∧
    ((∃ t ∈ ts, count t = none) →
      ∃ e, baselineCounts count ts = .error e) := by
  induction ts with
  | nil =>
    constructor
    · intro _; exact ⟨[], rfl, by simp⟩
    · rintro ⟨t, ht, -⟩; simp at ht
  | cons t ts ih =>
    constructor
    · intro h
      have ht : (count t).isSome = true := h t (by simp)
      obtain ⟨n, hn⟩ := Option.isSome_iff_exists.mp ht
      obtain ⟨m, hm, hcomp⟩ := ih.1 (fun u hu => h u (by simp [hu]))
      refine ⟨(t, n) :: m, by simp [baselineCounts, hn, hm], ?_⟩
      intro u hu
      rcases List.mem_cons.mp hu with rfl | hu2
      · exact ⟨n, by simp, hn⟩
      · obtain ⟨n2, hmem, hcu⟩ := hcomp u hu2
        exact ⟨n2, by simp [hmem], hcu⟩
    · rintro ⟨u, hu, hnone⟩
      cases hcnt : count t with
      | none => exact ⟨t, by simp [baselineCounts, hcnt]⟩
      | some n =>
        have hu2 : u ∈ ts := by
          rcases List.mem_cons.mp hu with rfl | h2
          · rw [hcnt] at hnone; cases hnone
          · exact h2
        obtain ⟨e, he⟩ := ih.2 ⟨u, hu2, hnone⟩
        exact ⟨e, by simp [baselineCounts, hcnt, he]⟩

/-- Witness for C9: a two-table capture against a count oracle defined on
both tables succeeds with a complete map. -/
theorem baseline_capture_complete_witness :
    ∃ m, baselineCounts demoCounts ["Categories", "Suppliers"] = .ok m ∧
      ∀ t ∈ ["Categories", "Suppliers"], ∃ n, (t, n) ∈ m ∧ demoCounts t = some n :=
  (baseline_capture_complete demoCounts ["Categories", "Suppliers"]).1 (by decide)

/-- C10: when the extracted frame has no `IsActive` column, the test
migration extracts rows but issues no insert, no commit, and no
verification, raises nothing, and leaves the target row count unchanged. -/
theorem test_migration_isactive_gate (e : MigEnv) (hx : e.extractFails = false)
    (hc : e.sourceCols.contains "IsActive" = false) :
    (testMigration e).extracted = true ∧
    (testMigration e).inserted = false ∧
    (testMigration e).committed = false ∧
    (testMigration e).verifiedRun = false ∧
    (testMigration e).raised = none ∧
    (testMigration e).targetCountAfter = e.targetCount := by
  have hm : "IsActive" ∉ e.sourceCols := by simpa using hc
  simp [testMigration, hx, hm]

/-- Witness for C10: a Suppliers-shaped frame with no `IsActive` column. -/
theorem test_migration_isactive_gate_witness :
    (testMigration noIsActiveEnv).extracted = true ∧
    (testMigration noIsActiveEnv).inserted = false ∧
    (testMigration noIsActiveEnv).committed = false ∧
    (testMigration noIsActiveEnv).verifiedRun = false ∧
    (testMigration noIsActiveEnv).raised = none ∧
    (testMigration noIsActiveEnv).targetCountAfter = noIsActiveEnv.targetCount :=
  test_migration_isactive_gate noIsActiveEnv (by decide) (by decide)

/-- C1 (code bug): in the remaining-tables loop every table's extract
raises — the query is the misspelled `SLEECT * FROM {table}` — yet the
`except Exception: pass` handler swallows each failure: nothing is
propagated to the caller (no `TableMigrationError`, no underlying cause)
and no rollback is issued.  In the single-table test cell a failing load is
rolled back (target count unchanged) but the re-raised exception is the
bare driver error, carrying no table name. -/
theorem migrate_remaining_swallows :
    migrateRemaining (sqlServerRead uatSource) remainingTables =
      [("Categories", ⟨true, true, false, false, 0⟩),
       ("Suppliers", ⟨true, true, false, false, 0⟩),
       ("Products", ⟨true, true, false, false, 0⟩)] ∧
    (testMigration loadFailEnv).raised = some "load" ∧
    (testMigration loadFailEnv).targetCountAfter = loadFailEnv.targetCount := by
  refine ⟨by decide, by decide, by decide⟩

/-- C2 counterexample: with the real source (where every remaining-table
extract raises), Suppliers fails while its dependent Products is still
pending, yet Products is attempted anyway and no error result of any kind
is produced for it — contradicting "each such dependent table is never
attempted and receives a SkippedDependencyError result". -/
theorem orchestrator_no_skip_cex :
    (migrateRemaining (sqlServerRead uatSource) remainingTables).lookup "Suppliers" =
      some ⟨true, true, false, false, 0⟩ ∧
    (migrateRemaining (sqlServerRead uatSource) remainingTables).lookup "Products" =
      some ⟨true, true, false, false, 0⟩ := by
  refine ⟨by decide, by decide⟩

/-- C2 (amended): the remaining-tables loop continues past every failure,
attempting each remaining table exactly once in the original order with no
error ever propagated — dependents included, with no skip mechanism — while
a materialization (CREATE TABLE) failure on one table aborts the whole
create loop, re-raising, so no per-table result list survives it. -/
theorem orchestrator_continues (db : String → Except String Nat) (ts : List String)
    (ddlFails : String → Bool) (t : String) (rest : List String)
    (hf : ddlFails t = true) :
    (migrateRemaining db ts).map Prod.fst = ts ∧
    (∀ p ∈ migrateRemaining db ts, p.2.attempted = true ∧ p.2.errorPropagated = false) ∧
    createTables ddlFails (t :: rest) = ([], some t) := by
  refine ⟨?_, ?_, ?_⟩
  · unfold migrateRemaining
    rw [List.map_map]
    show List.map (fun t : String => t) ts = ts
    simp
  · intro p hp
    simp only [migrateRemaining, List.mem_map] at hp
    obtain ⟨u, -, hu⟩ := hp
    subst hu
    cases db ("SLEECT * FROM " ++ u) <;> exact ⟨rfl, rfl⟩
  · simp [createTables, hf]

/-- Witness for the amended C2 at concrete inputs: the real remaining
tables against the real (always-failing) extract, and a Suppliers
materialization failure aborting the create loop. -/
theorem orchestrator_continues_witness :
    (migrateRemaining (sqlServerRead uatSource) remainingTables).map Prod.fst = remainingTables ∧
    (∀ p ∈ migrateRemaining (sqlServerRead uatSource) remainingTables,
      p.2.attempted = true ∧ p.2.errorPropagated = false) ∧
    createTables (fun u => u == "Suppliers") ("Suppliers" :: ["Customers", "Products"]) =
      ([], some "Suppliers") :=
  orchestrator_continues (sqlServerRead uatSource) remainingTables
    (fun u => u == "Suppliers") "Suppliers" ["Customers", "Products"] (by decide)

/-- C3 (code bug): schema inspection of a table absent from the source
catalog silently stores an empty schema for it (the metadata query matches
no rows and succeeds), and an inspection failure is swallowed by the
`except Exception: pass` handler — the partial `table_shema` dict survives
with no error surfaced. -/
theorem table_shema_swallows :
    table_shema (infoSchemaQuery ghostCatalog) ["Ghost"] = [("Ghost", [])] ∧
    table_shema (fun _ => .error "connection reset") ["Customers", "Products"] = [] := by
  refine ⟨by decide, rfl⟩

/-- C4 counterexample: when the first check's query raises (missing
`CustomerName` column) while every later check has violations to report,
the single `try` block aborts and re-raises — no finding from the
remaining checks is produced, contradicting per-check isolation. -/
theorem quality_checks_not_isolated_cex :
    qualityIssues missingColumnSource = .error "Invalid column name CustomerName" := rfl

/-- C4 (amended): the five checks run inside one guarded block — if the
first check's query raises, the remaining checks never report and the
error is re-raised — while in a run where every check query succeeds each
check contributes its finding independently, from its own count alone. -/
theorem quality_checks_guarded (s : ChecksSource) :
    (∀ e, s.nullNames = .error e → qualityIssues s = .error e) ∧
    (∀ k1 k2 k3 k4 k5 : Nat, s.nullNames = .ok k1 → s.invalidEmails = .ok k2 →
      s.negativePrices = .ok k3 → s.negativeStock = .ok k4 → s.orphanedFks = .ok k5 →
      qualityIssues s = .ok ((((checkFinding nullNamesMsg k1 ++
        checkFinding invalidEmailsMsg k2) ++ checkFinding negativePricesMsg k3) ++
        checkFinding negativeStockMsg k4) ++ checkFinding orphanedFksMsg k5)) := by
  constructor
  · intro e he
    unfold qualityIssues
    rw [he]
    rfl
  · intro k1 k2 k3 k4 k5 h1 h2 h3 h4 h5
    unfold qualityIssues
    rw [h1, h2, h3, h4, h5]
    rfl

/-- Witness for the amended C4: a source where all five queries succeed
with counts 1, 0, 0, 0, 2. -/
theorem quality_checks_guarded_witness :
    qualityIssues ⟨.ok 1, .ok 0, .ok 0, .ok 0, .ok 2⟩ =
      .ok ((((checkFinding nullNamesMsg 1 ++ checkFinding invalidEmailsMsg 0) ++
        checkFinding negativePricesMsg 0) ++ checkFinding negativeStockMsg 0) ++
        checkFinding orphanedFksMsg 2) :=
  (quality_checks_guarded ⟨.ok 1, .ok 0, .ok 0, .ok 0, .ok 2⟩).2 1 0 0 0 2 rfl rfl rfl rfl rfl
